import Mathlib

/-!
Shallow embedding of `src/main.rs` of the `artificial_life_fight` repository
(an artificial-life demo: random-walk entities, an append-only rewind buffer
with a scrub slider, a pan/zoom camera, and JSON save/load of the state).

Modelling conventions:
* `f32` / `f64` values are modelled as exact rationals (`ℚ`).
* `macroquad::rand::gen_range(1, 5)` draws an integer uniformly from `[1, 5)`;
  the per-entity draws of one `update_simulation` call are modelled as a
  stream `rng : ℕ → ℤ` indexed by the entity's position in the vector.
* The file system is an association list from paths to stored JSON documents;
  `std::fs::write` prepends (overwriting on lookup), `read_to_string` is a
  lookup.  Panics (`unwrap` / `expect` / out-of-bounds `Vec` indexing) are
  modelled as `Except PanicMsg`.
* serde_json is modelled at the JSON-document level: serialization of a
  `SimulationState` is total (the derived `Serialize` for this type cannot
  fail), deserialization follows the derived `Deserialize` (field lookup).
-/

structure Entity where
  x : ℚ
  y : ℚ
deriving DecidableEq

structure SimulationState where
  entities : List Entity
  time : ℚ
deriving DecidableEq

def Entity.new (x y : ℚ) : Entity := { x := x, y := y }

/-- One entity's move in `update_simulation`, from the `match rand::gen_range(1, 5)`:
`1 => x -= 1.0`, `2 => x += 1.0`, `3 => y -= 1.0`, `_ => y += 1.0`. -/
def stepEntity (r : ℤ) (e : Entity) : Entity :=
  if r = 1 then { e with x := e.x - 1 }
  else if r = 2 then { e with x := e.x + 1 }
  else if r = 3 then { e with y := e.y - 1 }
  else { e with y := e.y + 1 }

/-- The `for entity in &mut state.entities` loop of `update_simulation`,
drawing one random value per entity in order; `k` is the index of the first
entity of `l` in the whole vector. -/
def update_entities (rng : ℕ → ℤ) (k : ℕ) : List Entity → List Entity
  | [] => []
  | e :: rest => stepEntity (rng k) e :: update_entities rng (k + 1) rest

/-- `fn update_simulation(state: &mut SimulationState, dt: f32)`: every entity
takes one random unit step; `dt` is an unused parameter and `time` is untouched. -/
def update_simulation (rng : ℕ → ℤ) (state : SimulationState) (dt : ℚ) : SimulationState :=
  { state with entities := update_entities rng 0 state.entities }

/-- The possible results of `rand::gen_range(1, 5)` (integers in `[1, 5)`),
each drawn with uniform probability. -/
def gen_range_outcomes : List ℤ := [1, 2, 3, 4]

/-- JSON documents, with numbers as exact rationals. -/
inductive Json where
  | num (q : ℚ)
  | str (s : String)
  | bool (b : Bool)
  | null
  | arr (elems : List Json)
  | obj (fields : List (String × Json))

/-- Field lookup in a JSON object's field list (first occurrence wins),
as the derived serde `Deserialize` does. -/
def lookupField : List (String × Json) → String → Option Json
  | [], _ => none
  | (k, v) :: rest, key => if k = key then some v else lookupField rest key

def Json.getField : Json → String → Option Json
  | .obj fields, key => lookupField fields key
  | _, _ => none

def Json.asNum : Json → Option ℚ
  | .num q => some q
  | _ => none

/-- Derived `Serialize` for `Entity`. -/
def Entity.toJson (e : Entity) : Json :=
  .obj [("x", .num e.x), ("y", .num e.y)]

/-- Derived `Serialize` for `SimulationState`. -/
def SimulationState.toJson (s : SimulationState) : Json :=
  .obj [("entities", .arr (s.entities.map Entity.toJson)), ("time", .num s.time)]

/-- Derived `Deserialize` for `Entity`: requires a JSON object with numeric
fields `x` and `y`. -/
def Entity.fromJson (j : Json) : Option Entity :=
  match j.getField "x", j.getField "y" with
  | some jx, some jy =>
    match jx.asNum, jy.asNum with
    | some x, some y => some { x := x, y := y }
    | _, _ => none
  | _, _ => none

/-- Derived `Deserialize` for `Vec<Entity>`. -/
def entitiesFromJson : List Json → Option (List Entity)
  | [] => some []
  | j :: rest =>
    match Entity.fromJson j, entitiesFromJson rest with
    | some e, some es => some (e :: es)
    | _, _ => none

/-- Derived `Deserialize` for `SimulationState`: requires a JSON object with
an array field `entities` of well-formed entities and a numeric field `time`. -/
def SimulationState.fromJson (j : Json) : Option SimulationState :=
  match j.getField "entities", j.getField "time" with
  | some je, some jt =>
    match je, jt.asNum with
    | .arr js, some t =>
      match entitiesFromJson js with
      | some es => some { entities := es, time := t }
      | none => none
    | _, _ => none
  | _, _ => none

/-- `serde_json::to_string_pretty` on a `SimulationState`: total for this type
(lists, structs and finite numbers only), so the `Result` is always `Ok`. -/
def to_string_pretty (s : SimulationState) : Option Json :=
  some (SimulationState.toJson s)

/-- The ways the program can terminate via `unwrap` / `expect` / `Vec` indexing. -/
inductive PanicMsg where
  /-- `serde_json::to_string_pretty(state).unwrap()` failed. -/
  | serializeFailed
  /-- `std::fs::write(...).expect("Failed to save the simulation state.")` failed. -/
  | saveFailed
  /-- `std::fs::read_to_string(...).expect("Failed to read the simulation state.")` failed. -/
  | readFailed
  /-- `serde_json::from_str(...).expect("Failed to parse the simulation state.")` failed. -/
  | parseFailed
  /-- `rewind_buffer[i]` with `i` out of bounds. -/
  | indexOutOfBounds
deriving DecidableEq

/-- The file system: an association list from paths to stored JSON documents. -/
def FS : Type := List (String × Json)

def FS.write (fs : FS) (path : String) (j : Json) : FS := (path, j) :: fs

def FS.read : FS → String → Option Json
  | [], _ => none
  | (k, v) :: rest, path => if k = path then some v else FS.read rest path

/-- A file system with no stored files. -/
def emptyFS : FS := []

/-- `fn save_simulation_state(state, file_path)`: serialize (`unwrap`), then
write the file (`expect`); `writeOk` says whether the OS write succeeds. -/
def save_simulation_state (writeOk : Bool) (state : SimulationState) (file_path : String)
    (fs : FS) : Except PanicMsg FS :=
  match to_string_pretty state with
  | none => .error .serializeFailed
  | some json =>
    if writeOk then .ok (FS.write fs file_path json)
    else .error .saveFailed

/-- `fn load_simulation_state(file_path) -> SimulationState`: read the file
(`expect`), then parse it (`expect`). -/
def load_simulation_state (fs : FS) (file_path : String) : Except PanicMsg SimulationState :=
  match FS.read fs file_path with
  | none => .error .readFailed
  | some json =>
    match SimulationState.fromJson json with
    | none => .error .parseFailed
    | some s => .ok s

/-- `macroquad::math::Vec2`, with exact-rational components. -/
structure Vec2Q where
  x : ℚ
  y : ℚ
deriving DecidableEq

/-- The fields of `Camera2D` that `main` reads or writes. -/
structure Camera where
  zoom : Vec2Q
  target : Vec2Q
deriving DecidableEq

/-- `let rewind_interval = 0.5;` -/
def rewind_interval : ℚ := 1/2

/-- `let move_speed = 0.001;` -/
def move_speed : ℚ := 1/1000

/-- `let zoom_speed = 0.001;` -/
def zoom_speed : ℚ := 1/1000

/-- `let min_zoom = vec2(0.008, 0.008);` -/
def min_zoom : Vec2Q := { x := 8/1000, y := 8/1000 }

/-- `let max_zoom = vec2(0.2, 0.2);` -/
def max_zoom : Vec2Q := { x := 2/10, y := 2/10 }

/-- `f32::clamp` (as used componentwise by `Vec2::clamp`). -/
def clampQ (v lo hi : ℚ) : ℚ :=
  if v < lo then lo else if hi < v then hi else v

/-- `f32::signum` on a nonzero finite value (the call site is guarded by
`scroll != 0.0`). -/
def signumQ (v : ℚ) : ℚ :=
  if 0 < v then 1 else if v < 0 then -1 else 0

/-- The mutable loop-local variables of `main`. -/
structure LoopState where
  state : SimulationState
  paused : Bool
  speed : ℚ
  elapsed_time : ℚ
  rewind_buffer : List SimulationState
  slider_value : ℕ
  max_buffer_index : ℕ
  current_index : ℕ
  camera : Camera
  old_mouse_position : ℚ × ℚ
deriving DecidableEq

/-- One frame's external inputs: frame time, mouse and keyboard state, the
world-space point under the cursor (the result of `camera.screen_to_world`,
which depends on the window transform and is therefore taken as an input),
the random stream for this frame's `update_simulation` call, the egui widget
interactions, and whether an OS file write would succeed. -/
structure FrameInput where
  frame_time : ℚ
  mouse_x : ℚ
  mouse_y : ℚ
  mouse_down : Bool
  key_right : Bool
  key_left : Bool
  key_up : Bool
  key_down : Bool
  scroll : ℚ
  mouse_world_x : ℚ
  mouse_world_y : ℚ
  rng : ℕ → ℤ
  ui_pause_clicked : Bool
  ui_speed : ℚ
  ui_slider : ℕ
  ui_save_clicked : Bool
  ui_load_clicked : Bool
  ui_focus_clicked : Bool
  write_ok : Bool

/-- Lines 111-143 of `main`: mouse-drag pan, arrow-key pan, wheel zoom
(re-center the target on the cursor's world position, step the zoom by
`zoom_speed` in the wheel's direction, clamp to `[min_zoom, max_zoom]`). -/
def cameraUpdate (inp : FrameInput) (oldMouse : ℚ × ℚ) (cam : Camera) : Camera :=
  let cam :=
    if inp.mouse_down then
      let deltaX := inp.mouse_x - oldMouse.1
      let deltaY := oldMouse.2 - inp.mouse_y
      { cam with target :=
          { x := cam.target.x + deltaX * (-1 / cam.zoom.x) * move_speed,
            y := cam.target.y + deltaY * (-1 / cam.zoom.y) * move_speed } }
    else cam
  let cam :=
    if inp.key_right then
      { cam with target := { cam.target with x := cam.target.x + move_speed / cam.zoom.x } }
    else cam
  let cam :=
    if inp.key_left then
      { cam with target := { cam.target with x := cam.target.x - move_speed / cam.zoom.x } }
    else cam
  let cam :=
    if inp.key_up then
      { cam with target := { cam.target with y := cam.target.y - move_speed / cam.zoom.y } }
    else cam
  let cam :=
    if inp.key_down then
      { cam with target := { cam.target with y := cam.target.y + move_speed / cam.zoom.y } }
    else cam
  if inp.scroll ≠ 0 then
    { cam with
      target := { x := inp.mouse_world_x, y := inp.mouse_world_y },
      zoom :=
        { x := clampQ (cam.zoom.x + zoom_speed * signumQ inp.scroll) min_zoom.x max_zoom.x,
          y := clampQ (cam.zoom.y + zoom_speed * signumQ inp.scroll) min_zoom.y max_zoom.y } }
  else cam

/-- The input-processing prefix of a frame: camera mutation plus the
`old_mouse_position = current_mouse_position;` update. -/
def cameraInputStep (inp : FrameInput) (ls : LoopState) : LoopState :=
  { ls with
    camera := cameraUpdate inp ls.old_mouse_position ls.camera,
    old_mouse_position := (inp.mouse_x, inp.mouse_y) }

/-- Lines 150-153 of `main`: if the current index has diverged from the last
appended index (a scrub happened), re-synchronize from the buffer entry at the
slider index; the `Vec` indexing panics if the slider is out of bounds. -/
def resync (ls : LoopState) : Option LoopState :=
  if ls.current_index ≠ ls.max_buffer_index then
    (ls.rewind_buffer[ls.slider_value]?).map fun snap =>
      { ls with current_index := ls.max_buffer_index, state := snap }
  else some ls

/-- Lines 155-164 of `main`: advance the simulation, append the snapshot,
record the new last index, drag the slider to it, bump `current_index`, and
reset the elapsed-time accumulator. -/
def appendSnapshot (rng : ℕ → ℤ) (dt : ℚ) (ls : LoopState) : LoopState :=
  let newState := update_simulation rng ls.state dt
  let buf := ls.rewind_buffer ++ [newState]
  { ls with
    state := newState,
    rewind_buffer := buf,
    max_buffer_index := buf.length - 1,
    slider_value := buf.length - 1,
    current_index := ls.current_index + 1,
    elapsed_time := 0 }

/-- Lines 145-172 of `main`: the simulation branch of a frame.  Running:
accumulate `dt` and, when the accumulator reaches `rewind_interval`, resync
if scrubbed, then step and append.  Paused: replace the working state with
the buffer entry at the slider (guarded by a length check).  In the source
the accumulator is written before the threshold test and reset to `0.0`
inside the threshold branch; since nothing in that branch reads it, the
intermediate write is folded away here and only the final value (`0` in the
snapshot branch, `elapsed_time + dt` otherwise) is stored. -/
def simStep (rng : ℕ → ℤ) (dt : ℚ) (ls : LoopState) : Except PanicMsg LoopState :=
  if ls.paused then
    if h : ls.slider_value < ls.rewind_buffer.length then
      .ok { ls with
        state := ls.rewind_buffer.get ⟨ls.slider_value, h⟩,
        current_index := ls.slider_value }
    else .ok ls
  else
    if rewind_interval ≤ ls.elapsed_time + dt then
      match resync ls with
      | none => .error .indexOutOfBounds
      | some ls1 => .ok (appendSnapshot rng dt ls1)
    else .ok { ls with elapsed_time := ls.elapsed_time + dt }

/-- Lines 195-206 of `main`: the Pause/Resume button, the speed slider
(egui clamps the value to `[0.01, 10.0]`), and the time slider (egui clamps
the value to `[0, max_buffer_index]`). -/
def uiWidgets (inp : FrameInput) (ls : LoopState) : LoopState :=
  { ls with
    paused := if inp.ui_pause_clicked then !ls.paused else ls.paused,
    speed := clampQ inp.ui_speed (1/100) 10,
    slider_value := min inp.ui_slider ls.max_buffer_index }

/-- Lines 209-211 of `main`: the Save button. -/
def uiSave (inp : FrameInput) (fs : FS) (ls : LoopState) : Except PanicMsg FS :=
  if inp.ui_save_clicked then
    save_simulation_state inp.write_ok ls.state "simulation_state.json" fs
  else .ok fs

/-- Lines 212-214 of `main`: the Load button, replacing the working state. -/
def uiLoad (inp : FrameInput) (fs : FS) (ls : LoopState) : Except PanicMsg LoopState :=
  if inp.ui_load_clicked then
    (load_simulation_state fs "simulation_state.json").map fun s => { ls with state := s }
  else .ok ls

/-- Lines 216-218 of `main`: the focus button, resetting the camera target. -/
def uiFocus (inp : FrameInput) (ls : LoopState) : LoopState :=
  if inp.ui_focus_clicked then
    { ls with camera := { ls.camera with target := { x := 50, y := 50 } } }
  else ls

/-- Lines 193-225 of `main`: the egui overlay.  In order: the Pause/Resume
button, the speed slider, the time slider, the Save button, the Load button,
and the focus button. -/
def uiStep (inp : FrameInput) (fs : FS) (ls : LoopState) : Except PanicMsg (LoopState × FS) :=
  match uiSave inp fs (uiWidgets inp ls) with
  | .error e => .error e
  | .ok fs1 =>
    match uiLoad inp fs1 (uiWidgets inp ls) with
    | .error e => .error e
    | .ok ls2 => .ok (uiFocus inp ls2, fs1)

/-- One iteration of the `loop` in `main`: compute `dt`, process camera
input, run the simulation branch, render (no state change), run the egui
overlay. -/
def frameStep (inp : FrameInput) (fs : FS) (ls : LoopState) : Except PanicMsg (LoopState × FS) :=
  match simStep inp.rng (inp.frame_time * ls.speed) (cameraInputStep inp ls) with
  | .error e => .error e
  | .ok ls2 => uiStep inp fs ls2

/-- The state constructed in lines 69-75 of `main`. -/
def initState : SimulationState :=
  { entities := [Entity.new 50 50], time := 0 }

/-- The camera constructed in lines 90-94 of `main`. -/
def initCamera : Camera :=
  { zoom := { x := 1/100, y := 1/100 }, target := { x := 50, y := 50 } }

/-- The loop state after lines 69-105 of `main` (including the initial
`rewind_buffer.push(state.clone())`); `m` is the startup mouse position. -/
def initLoopState (m : ℚ × ℚ) : LoopState :=
  { state := initState,
    paused := false,
    speed := 1,
    elapsed_time := 0,
    rewind_buffer := [initState],
    slider_value := 0,
    max_buffer_index := 0,
    current_index := 0,
    camera := initCamera,
    old_mouse_position := m }

/-- Both zoom axes are within their configured bounds. -/
def zoomInBounds (cam : Camera) : Prop :=
  min_zoom.x ≤ cam.zoom.x ∧ cam.zoom.x ≤ max_zoom.x ∧
  min_zoom.y ≤ cam.zoom.y ∧ cam.zoom.y ≤ max_zoom.y

instance : DecidablePred zoomInBounds := fun cam => by
  unfold zoomInBounds; infer_instance

/-- The buffer-indexing invariant of the loop: the buffer is non-empty, the
recorded max index is the index of its last entry, and the slider is within
`[0, max_buffer_index]`. -/
def LoopInv (ls : LoopState) : Prop :=
  ls.rewind_buffer ≠ [] ∧
  ls.max_buffer_index = ls.rewind_buffer.length - 1 ∧
  ls.slider_value ≤ ls.max_buffer_index

instance : DecidablePred LoopInv := fun ls => by
  unfold LoopInv; infer_instance

/-- A frame with no user interaction: zero frame time, mouse at the origin
and not pressed, no keys, no wheel motion, no widget interaction, and sliders
reporting their current values (`speed = 1.0`, time slider at `0`). -/
def noInput : FrameInput :=
  { frame_time := 0, mouse_x := 0, mouse_y := 0, mouse_down := false,
    key_right := false, key_left := false, key_up := false, key_down := false,
    scroll := 0, mouse_world_x := 0, mouse_world_y := 0, rng := fun _ => 4,
    ui_pause_clicked := false, ui_speed := 1, ui_slider := 0,
    ui_save_clicked := false, ui_load_clicked := false, ui_focus_clicked := false,
    write_ok := true }

/-- A paused loop state (otherwise the initial one). -/
def pausedLS : LoopState := { initLoopState (0, 0) with paused := true }

/-- A running loop state that has been scrubbed: two buffered snapshots,
`max_buffer_index = 1` but `current_index = 0` and the slider at `0`, with
enough accumulated time to cross the snapshot threshold on a `dt = 0` frame. -/
def scrubbedLS : LoopState :=
  { initLoopState (0, 0) with
    rewind_buffer := [initState, initState],
    max_buffer_index := 1,
    current_index := 0,
    slider_value := 0,
    elapsed_time := 1 }

/-- A running frame whose `dt` is below the snapshot threshold. -/
def shortFrame : FrameInput := { noInput with frame_time := 1/10 }

/-- A frame whose only interaction is a Load button press. -/
def loadFrame : FrameInput := { noInput with ui_load_clicked := true }

/-- A file system holding one saved snapshot at the fixed save path. -/
def savedFS : FS := FS.write emptyFS "simulation_state.json" (SimulationState.toJson initState)

/-! ## Basic lemmas about the simulation step -/

theorem update_entities_length (rng : ℕ → ℤ) (k : ℕ) (l : List Entity) :
    (update_entities rng k l).length = l.length := by
  induction l generalizing k with
  | nil => rfl
  | cons e rest ih => simp [update_entities, ih]

theorem update_entities_getElem? (rng : ℕ → ℤ) (k : ℕ) (l : List Entity) (i : ℕ) :
    (update_entities rng k l)[i]? = (l[i]?).map (stepEntity (rng (k + i))) := by
  induction l generalizing k i with
  | nil => simp [update_entities]
  | cons e rest ih =>
    cases i with
    | zero => simp [update_entities]
    | succ n =>
      have hk : k + (n + 1) = (k + 1) + n := by omega
      simp only [update_entities, List.getElem?_cons_succ, hk, ih]

/-- C1: one call to `update_simulation` is independent of `dt`, leaves `time`
and the entity count unchanged, moves entity `i` to `stepEntity` of its own
random draw (independently of the other entities), every draw moves the
entity by exactly one unit along exactly one axis, and the four equally
likely draws of `rand::gen_range(1, 5)` produce the four distinct unit moves
`-x, +x, -y, +y`, one draw each (uniform distribution over the moves). -/
theorem C1_random_walk_update :
    (∀ rng s dt dtAlt, update_simulation rng s dt = update_simulation rng s dtAlt) ∧
    (∀ rng s dt, (update_simulation rng s dt).time = s.time ∧
      (update_simulation rng s dt).entities.length = s.entities.length) ∧
    (∀ rng s dt i, ((update_simulation rng s dt).entities)[i]? =
      (s.entities[i]?).map (stepEntity (rng i))) ∧
    (∀ r e,
      ((stepEntity r e).y = e.y ∧
        ((stepEntity r e).x = e.x + 1 ∨ (stepEntity r e).x = e.x - 1)) ∨
      ((stepEntity r e).x = e.x ∧
        ((stepEntity r e).y = e.y + 1 ∨ (stepEntity r e).y = e.y - 1))) ∧
    (∀ e, gen_range_outcomes.map (fun r => stepEntity r e) =
        [{ e with x := e.x - 1 }, { e with x := e.x + 1 },
         { e with y := e.y - 1 }, { e with y := e.y + 1 }] ∧
      (gen_range_outcomes.map (fun r => stepEntity r e)).Nodup) := by
  refine ⟨fun rng s dt dtAlt => rfl, fun rng s dt => ⟨rfl, update_entities_length rng 0 s.entities⟩,
    fun rng s dt i => by simpa using update_entities_getElem? rng 0 s.entities i, ?_, ?_⟩
  · intro r e
    unfold stepEntity
    split
    · exact Or.inl ⟨rfl, Or.inr rfl⟩
    · split
      · exact Or.inl ⟨rfl, Or.inl rfl⟩
      · split
        · exact Or.inr ⟨rfl, Or.inr rfl⟩
        · exact Or.inr ⟨rfl, Or.inl rfl⟩
  · intro e
    constructor
    · simp [gen_range_outcomes, stepEntity]
    · have h1 : e.x - 1 ≠ e.x + 1 := by intro h; linarith
      have h2 : e.y - 1 ≠ e.y + 1 := by intro h; linarith
      have h3 : e.x - 1 ≠ e.x := by intro h; linarith
      have h4 : e.x + 1 ≠ e.x := by intro h; linarith
      have h5 : e.y - 1 ≠ e.y := by intro h; linarith
      have h6 : e.y + 1 ≠ e.y := by intro h; linarith
      simp [gen_range_outcomes, stepEntity, List.Nodup, Entity.mk.injEq, h1, h2, h3, h4, h5, h6]

/-! ## Round-trip lemmas for the JSON model -/

theorem entity_fromJson_toJson (e : Entity) :
    Entity.fromJson (Entity.toJson e) = some e := by
  simp [Entity.fromJson, Entity.toJson, Json.getField, lookupField, Json.asNum]

theorem entitiesFromJson_map (es : List Entity) :
    entitiesFromJson (es.map Entity.toJson) = some es := by
  induction es with
  | nil => rfl
  | cons e rest ih => simp [entitiesFromJson, entity_fromJson_toJson, ih]

theorem fromJson_toJson (s : SimulationState) :
    SimulationState.fromJson (SimulationState.toJson s) = some s := by
  simp [SimulationState.fromJson, SimulationState.toJson, Json.getField, lookupField,
    Json.asNum, entitiesFromJson_map]

theorem FS.read_write (fs : FS) (path : String) (j : Json) :
    FS.read (FS.write fs path j) path = some j := by
  simp [FS.read, FS.write]

/-- C2: saving a state and then loading from the same file path returns a
state equal to the original (entity by entity, field by field, and with an
equal `time` field — the states are equal as whole values). -/
theorem C2_save_load_round_trip (s : SimulationState) (fs fsAfter : FS) (path : String)
    (h : save_simulation_state true s path fs = .ok fsAfter) :
    load_simulation_state fsAfter path = .ok s := by
  have hfs : FS.write fs path (SimulationState.toJson s) = fsAfter := by
    simpa [save_simulation_state, to_string_pretty] using h
  subst hfs
  simp [load_simulation_state, FS.read_write, fromJson_toJson]

theorem C2_witness :
    load_simulation_state
      (FS.write emptyFS "simulation_state.json" (SimulationState.toJson initState))
      "simulation_state.json" = .ok initState :=
  C2_save_load_round_trip initState emptyFS _ "simulation_state.json" rfl

/-- C9: `save_simulation_state` panics exactly when serialization or the file
write fails, and `load_simulation_state` panics exactly when the file read or
the JSON parse fails; every non-panicking run returns the full result (there
is no recovery or partial-state path). -/
theorem C9_persistence_failure_policy :
    (∀ writeOk s path fs, (∃ e, save_simulation_state writeOk s path fs = .error e) ↔
        (to_string_pretty s = none ∨ writeOk = false)) ∧
    (∀ fs path, (∃ e, load_simulation_state fs path = .error e) ↔
        (FS.read fs path = none ∨
          ∃ j, FS.read fs path = some j ∧ SimulationState.fromJson j = none)) := by
  constructor
  · intro writeOk s path fs
    cases writeOk <;> simp [save_simulation_state, to_string_pretty]
  · intro fs path
    rcases hread : FS.read fs path with _ | j
    · simp [load_simulation_state, hread]
    · rcases hparse : SimulationState.fromJson j with _ | s <;>
        simp [load_simulation_state, hread, hparse]

/-! ## Frame-step helper lemmas -/

@[simp] theorem cameraInputStep_state (inp : FrameInput) (ls : LoopState) :
    (cameraInputStep inp ls).state = ls.state := rfl

@[simp] theorem cameraInputStep_paused (inp : FrameInput) (ls : LoopState) :
    (cameraInputStep inp ls).paused = ls.paused := rfl

@[simp] theorem cameraInputStep_speed (inp : FrameInput) (ls : LoopState) :
    (cameraInputStep inp ls).speed = ls.speed := rfl

@[simp] theorem cameraInputStep_elapsed (inp : FrameInput) (ls : LoopState) :
    (cameraInputStep inp ls).elapsed_time = ls.elapsed_time := rfl

@[simp] theorem cameraInputStep_buffer (inp : FrameInput) (ls : LoopState) :
    (cameraInputStep inp ls).rewind_buffer = ls.rewind_buffer := rfl

@[simp] theorem cameraInputStep_slider (inp : FrameInput) (ls : LoopState) :
    (cameraInputStep inp ls).slider_value = ls.slider_value := rfl

@[simp] theorem cameraInputStep_max (inp : FrameInput) (ls : LoopState) :
    (cameraInputStep inp ls).max_buffer_index = ls.max_buffer_index := rfl

@[simp] theorem cameraInputStep_current (inp : FrameInput) (ls : LoopState) :
    (cameraInputStep inp ls).current_index = ls.current_index := rfl

theorem resync_spec (ls ls1 : LoopState) (h : resync ls = some ls1) :
    ls1.rewind_buffer = ls.rewind_buffer ∧
    ls1.slider_value = ls.slider_value ∧
    ls1.max_buffer_index = ls.max_buffer_index ∧
    ls1.elapsed_time = ls.elapsed_time ∧
    ls1.paused = ls.paused ∧
    ls1.speed = ls.speed ∧
    ls1.camera = ls.camera ∧
    ls1.current_index = ls.max_buffer_index ∧
    (ls1.state = ls.state ∨ ls.rewind_buffer[ls.slider_value]? = some ls1.state) := by
  unfold resync at h
  split at h
  · rcases hb : ls.rewind_buffer[ls.slider_value]? with _ | snap
    · rw [hb] at h; simp at h
    · rw [hb] at h
      simp at h
      subst h
      simp [hb]
  · rename_i hc
    simp only [Option.some.injEq] at h
    subst h
    simp only [ne_eq, not_not] at hc
    simp [hc]

theorem resync_of_ne (ls : LoopState) (snap : SimulationState)
    (hne : ls.current_index ≠ ls.max_buffer_index)
    (hsnap : ls.rewind_buffer[ls.slider_value]? = some snap) :
    resync ls = some { ls with current_index := ls.max_buffer_index, state := snap } := by
  simp [resync, hne, hsnap]

theorem resync_isSome (ls : LoopState)
    (h : ls.slider_value < ls.rewind_buffer.length) :
    ∃ ls1, resync ls = some ls1 := by
  unfold resync
  split
  · rcases hb : ls.rewind_buffer[ls.slider_value]? with _ | snap
    · exact absurd (List.getElem?_eq_none_iff.mp hb) (by omega)
    · exact ⟨{ ls with current_index := ls.max_buffer_index, state := snap }, by simp [hb]⟩
  · exact ⟨ls, rfl⟩

theorem appendSnapshot_def (rng : ℕ → ℤ) (dt : ℚ) (ls : LoopState) :
    appendSnapshot rng dt ls =
      { ls with
        state := update_simulation rng ls.state dt,
        rewind_buffer := ls.rewind_buffer ++ [update_simulation rng ls.state dt],
        max_buffer_index := ls.rewind_buffer.length,
        slider_value := ls.rewind_buffer.length,
        current_index := ls.current_index + 1,
        elapsed_time := 0 } := by
  simp [appendSnapshot]

theorem simStep_ok_buffer (rng : ℕ → ℤ) (dt : ℚ) (ls ls' : LoopState)
    (h : simStep rng dt ls = .ok ls') :
    ls'.rewind_buffer = ls.rewind_buffer ∨
      ∃ snap, ls'.rewind_buffer = ls.rewind_buffer ++ [snap] := by
  unfold simStep at h
  split at h
  · split at h
    · simp only [Except.ok.injEq] at h; subst h; left; rfl
    · simp only [Except.ok.injEq] at h; subst h; left; rfl
  · split at h
    · split at h
      · exact absurd h (by simp)
      · rename_i ls1 hre
        simp only [Except.ok.injEq] at h
        subst h
        have hspec := resync_spec _ _ hre
        right
        refine ⟨update_simulation rng ls1.state dt, ?_⟩
        rw [appendSnapshot_def]
        simp [hspec.1]
    · simp only [Except.ok.injEq] at h; subst h; left; rfl

theorem simStep_ok_camera (rng : ℕ → ℤ) (dt : ℚ) (ls ls' : LoopState)
    (h : simStep rng dt ls = .ok ls') : ls'.camera = ls.camera := by
  unfold simStep at h
  split at h
  · split at h <;> (simp only [Except.ok.injEq] at h; subst h; rfl)
  · split at h
    · split at h
      · exact absurd h (by simp)
      · rename_i ls1 hre
        simp only [Except.ok.injEq] at h
        subst h
        have hspec := resync_spec _ _ hre
        rw [appendSnapshot_def]
        simpa using hspec.2.2.2.2.2.2.1
    · simp only [Except.ok.injEq] at h; subst h; rfl

/-- C3: while paused with the slider at `i` (with `0 ≤ i ≤ max_buffer_index`
and the recorded max index tracking the buffer length, as the loop maintains),
the frame's scrub step replaces the working state with an exact copy of
buffer entry `i`, records `current_index = i`, and changes nothing else. -/
theorem C3_paused_scrub (ls : LoopState) (rng : ℕ → ℤ) (dt : ℚ) (i : ℕ)
    (snap : SimulationState)
    (hp : ls.paused = true) (hs : ls.slider_value = i)
    (hmax : ls.max_buffer_index = ls.rewind_buffer.length - 1)
    (hne : ls.rewind_buffer ≠ [])
    (hi : i ≤ ls.max_buffer_index)
    (hsnap : ls.rewind_buffer[i]? = some snap) :
    simStep rng dt ls = .ok { ls with state := snap, current_index := i } := by
  subst hs
  have hpos : 0 < ls.rewind_buffer.length := List.length_pos.mpr hne
  have hlen : ls.slider_value < ls.rewind_buffer.length := by omega
  have hget : ls.rewind_buffer.get ⟨ls.slider_value, hlen⟩ = snap := by
    have := List.getElem?_eq_getElem hlen
    rw [this] at hsnap
    simpa using hsnap
  unfold simStep
  rw [hp, if_pos rfl, dif_pos hlen, hget]

theorem C3_witness :
    simStep (fun _ => 4) 0 pausedLS =
      .ok { pausedLS with state := initState, current_index := 0 } :=
  C3_paused_scrub pausedLS (fun _ => 4) 0 0 initState rfl rfl rfl
    (by simp [pausedLS, initLoopState]) (Nat.le_refl 0) rfl

/-- C4: when the snapshot threshold is crossed while `current_index` differs
from the last appended index (a scrub happened), the working state is first
replaced by a copy of the buffer entry at the slider index, and only then is
the simulation stepped and the result appended. -/
theorem C4_resync_before_append (ls : LoopState) (rng : ℕ → ℤ) (dt : ℚ)
    (snap : SimulationState)
    (hp : ls.paused = false)
    (hthr : rewind_interval ≤ ls.elapsed_time + dt)
    (hne : ls.current_index ≠ ls.max_buffer_index)
    (hsnap : ls.rewind_buffer[ls.slider_value]? = some snap) :
    simStep rng dt ls = .ok { ls with
      state := update_simulation rng snap dt,
      rewind_buffer := ls.rewind_buffer ++ [update_simulation rng snap dt],
      max_buffer_index := ls.rewind_buffer.length,
      slider_value := ls.rewind_buffer.length,
      current_index := ls.max_buffer_index + 1,
      elapsed_time := 0 } := by
  have hre := resync_of_ne ls snap hne hsnap
  unfold simStep
  rw [hp]
  simp only [Bool.false_eq_true, if_false, if_pos hthr, hre, appendSnapshot_def]
  simp [hp]

theorem C4_witness :
    simStep (fun _ => 4) 0 scrubbedLS = .ok { scrubbedLS with
      state := update_simulation (fun _ => 4) initState 0,
      rewind_buffer := scrubbedLS.rewind_buffer ++ [update_simulation (fun _ => 4) initState 0],
      max_buffer_index := scrubbedLS.rewind_buffer.length,
      slider_value := scrubbedLS.rewind_buffer.length,
      current_index := scrubbedLS.max_buffer_index + 1,
      elapsed_time := 0 } :=
  C4_resync_before_append scrubbedLS (fun _ => 4) 0 initState rfl
    (by norm_num [scrubbedLS, initLoopState, rewind_interval])
    (by simp [scrubbedLS, initLoopState]) rfl

theorem save_ne_index (writeOk : Bool) (s : SimulationState) (path : String) (fs : FS) :
    save_simulation_state writeOk s path fs ≠ .error .indexOutOfBounds := by
  unfold save_simulation_state to_string_pretty
  cases writeOk <;> simp

theorem load_ne_index (fs : FS) (path : String) :
    load_simulation_state fs path ≠ .error .indexOutOfBounds := by
  unfold load_simulation_state
  split
  · simp
  · split <;> simp

theorem uiSave_error (inp : FrameInput) (fs : FS) (ls : LoopState) (e : PanicMsg)
    (h : uiSave inp fs ls = .error e) : e ≠ .indexOutOfBounds := by
  unfold uiSave at h
  split at h
  · intro hc; subst hc; exact save_ne_index _ _ _ _ h
  · simp at h

theorem uiLoad_error (inp : FrameInput) (fs : FS) (ls : LoopState) (e : PanicMsg)
    (h : uiLoad inp fs ls = .error e) : e ≠ .indexOutOfBounds := by
  unfold uiLoad at h
  split at h
  · rcases hl : load_simulation_state fs "simulation_state.json" with e2 | s0 <;> rw [hl] at h
    · simp [Except.map] at h
      subst h
      intro hc
      subst hc
      exact load_ne_index _ _ hl
    · simp [Except.map] at h
  · simp at h

theorem uiLoad_ok (inp : FrameInput) (fs : FS) (ls ls2 : LoopState)
    (h : uiLoad inp fs ls = .ok ls2) :
    ls2 = ls ∨ ∃ s0, load_simulation_state fs "simulation_state.json" = .ok s0 ∧
      ls2 = { ls with state := s0 } := by
  unfold uiLoad at h
  split at h
  · rcases hl : load_simulation_state fs "simulation_state.json" with e2 | s0 <;> rw [hl] at h
    · simp [Except.map] at h
    · simp [Except.map] at h
      exact Or.inr ⟨s0, rfl, h.symm⟩
  · simp at h
    exact Or.inl h.symm

theorem uiStep_error (inp : FrameInput) (fs : FS) (ls : LoopState) (e : PanicMsg)
    (h : uiStep inp fs ls = .error e) : e ≠ .indexOutOfBounds := by
  unfold uiStep at h
  split at h
  · rename_i hsave
    injection h with he
    subst he
    exact uiSave_error _ _ _ _ hsave
  · split at h
    · rename_i hload
      injection h with he
      subst he
      exact uiLoad_error _ _ _ _ hload
    · simp at h

theorem uiStep_ok_spec (inp : FrameInput) (fs : FS) (ls ls' : LoopState) (fs' : FS)
    (h : uiStep inp fs ls = .ok (ls', fs')) :
    ls'.rewind_buffer = ls.rewind_buffer ∧
    ls'.max_buffer_index = ls.max_buffer_index ∧
    ls'.current_index = ls.current_index ∧
    ls'.elapsed_time = ls.elapsed_time ∧
    ls'.slider_value = min inp.ui_slider ls.max_buffer_index ∧
    ls'.camera.zoom = ls.camera.zoom := by
  unfold uiStep at h
  split at h
  · simp at h
  · split at h
    · simp at h
    · rename_i ls2 hls2
      simp only [Except.ok.injEq, Prod.mk.injEq] at h
      obtain ⟨h1, _⟩ := h
      subst h1
      rcases uiLoad_ok inp _ (uiWidgets inp ls) ls2 hls2 with heq | ⟨s0, _, heq⟩ <;>
        subst heq <;>
        refine ⟨?_, ?_, ?_, ?_, ?_, ?_⟩ <;>
        simp [uiFocus, uiWidgets, apply_ite LoopState.rewind_buffer,
          apply_ite LoopState.max_buffer_index, apply_ite LoopState.current_index,
          apply_ite LoopState.elapsed_time, apply_ite LoopState.slider_value,
          apply_ite LoopState.camera, apply_ite Camera.zoom]

theorem frameStep_ok_elim (inp : FrameInput) (fs : FS) (ls ls' : LoopState) (fs' : FS)
    (h : frameStep inp fs ls = .ok (ls', fs')) :
    ∃ ls2, simStep inp.rng (inp.frame_time * ls.speed) (cameraInputStep inp ls) = .ok ls2 ∧
      uiStep inp fs ls2 = .ok (ls', fs') := by
  unfold frameStep at h
  split at h
  · simp at h
  · rename_i ls2 hsim
    exact ⟨ls2, hsim, h⟩

/-- C5: the history buffer is append-only across every completed frame, in
every mode (running, paused, scrubbing, after save or load): the new buffer
is the old buffer with a (possibly empty) tail appended, so its length never
decreases and no stored snapshot is modified, truncated, or dropped —
entries past a scrub point included. -/
theorem C5_append_only (inp : FrameInput) (fs : FS) (ls ls' : LoopState) (fs' : FS)
    (h : frameStep inp fs ls = .ok (ls', fs')) :
    (∃ tail, ls'.rewind_buffer = ls.rewind_buffer ++ tail) ∧
    ls.rewind_buffer.length ≤ ls'.rewind_buffer.length := by
  obtain ⟨ls2, hsim, hui⟩ := frameStep_ok_elim inp fs ls ls' fs' h
  have hbuf2 := simStep_ok_buffer _ _ _ _ hsim
  have hspec := uiStep_ok_spec inp fs ls2 ls' fs' hui
  rw [cameraInputStep_buffer] at hbuf2
  rcases hbuf2 with heq | ⟨snap, heq⟩
  · exact ⟨⟨[], by simp [hspec.1, heq]⟩, by simp [hspec.1, heq]⟩
  · exact ⟨⟨[snap], by simp [hspec.1, heq]⟩, by simp [hspec.1, heq]⟩

theorem C5_witness :
    (∃ tail, (initLoopState (0, 0)).rewind_buffer =
      (initLoopState (0, 0)).rewind_buffer ++ tail) ∧
    (initLoopState (0, 0)).rewind_buffer.length ≤ (initLoopState (0, 0)).rewind_buffer.length :=
  C5_append_only noInput emptyFS (initLoopState (0, 0)) (initLoopState (0, 0)) emptyFS
    (by norm_num [frameStep, cameraInputStep, cameraUpdate, simStep, uiStep, uiWidgets,
      uiSave, uiLoad, uiFocus, noInput, initLoopState, initState, initCamera,
      rewind_interval, clampQ])

/-- C6 counterexample: a concrete running (not paused) frame that leaves the
working state — and so every entity position — unchanged, because the
accumulated time stays below the snapshot threshold; so it is not the case
that every running frame mutates every entity's position. -/
theorem C6_counterexample :
    (initLoopState (0, 0)).paused = false ∧
    frameStep shortFrame emptyFS (initLoopState (0, 0)) =
      .ok ({ initLoopState (0, 0) with elapsed_time := 1/10 }, emptyFS) ∧
    ({ initLoopState (0, 0) with elapsed_time := 1/10 }).state = (initLoopState (0, 0)).state := by
  refine ⟨rfl, ?_, rfl⟩
  norm_num [frameStep, cameraInputStep, cameraUpdate, simStep, uiStep, uiWidgets, uiSave,
    uiLoad, uiFocus, shortFrame, noInput, initLoopState, initState, initCamera,
    rewind_interval, clampQ]

/-- C6 (amended): in a running frame the elapsed-time accumulator advances by
`dt`; the simulation state is advanced (every entity mutated by one
`update_simulation` step) exactly in those frames where the accumulator
reaches the snapshot threshold, and those are exactly the frames in which a
snapshot is appended; in every other running frame the state and the buffer
are unchanged. -/
theorem C6_running_frame (ls : LoopState) (rng : ℕ → ℤ) (dt : ℚ)
    (hp : ls.paused = false) (hsl : ls.slider_value < ls.rewind_buffer.length) :
    ∃ ls', simStep rng dt ls = .ok ls' ∧
      (if rewind_interval ≤ ls.elapsed_time + dt then
        ls'.rewind_buffer = ls.rewind_buffer ++ [ls'.state] ∧
        ls'.elapsed_time = 0 ∧
        ∃ base, (base = ls.state ∨ ls.rewind_buffer[ls.slider_value]? = some base) ∧
          ls'.state = update_simulation rng base dt
      else
        ls'.rewind_buffer = ls.rewind_buffer ∧ ls'.state = ls.state ∧
        ls'.elapsed_time = ls.elapsed_time + dt) := by
  by_cases hthr : rewind_interval ≤ ls.elapsed_time + dt
  · obtain ⟨ls1, hre⟩ := resync_isSome ls hsl
    have hspec := resync_spec ls ls1 hre
    refine ⟨appendSnapshot rng dt ls1, ?_, ?_⟩
    · unfold simStep
      rw [hp]
      simp only [Bool.false_eq_true, if_false, if_pos hthr, hre]
    · rw [if_pos hthr, appendSnapshot_def]
      refine ⟨by simp [hspec.1], by simp, ls1.state, ?_, by simp⟩
      exact hspec.2.2.2.2.2.2.2.2
  · refine ⟨{ ls with elapsed_time := ls.elapsed_time + dt }, ?_, ?_⟩
    · unfold simStep
      rw [hp]
      simp only [Bool.false_eq_true, if_false, if_neg hthr]
    · rw [if_neg hthr]
      exact ⟨rfl, rfl, rfl⟩

theorem C6_witness :
    ∃ ls', simStep (fun _ => 4) (1/10) (initLoopState (0, 0)) = .ok ls' ∧
      (if rewind_interval ≤ (initLoopState (0, 0)).elapsed_time + 1/10 then
        ls'.rewind_buffer = (initLoopState (0, 0)).rewind_buffer ++ [ls'.state] ∧
        ls'.elapsed_time = 0 ∧
        ∃ base, (base = (initLoopState (0, 0)).state ∨
            (initLoopState (0, 0)).rewind_buffer[(initLoopState (0, 0)).slider_value]? =
              some base) ∧
          ls'.state = update_simulation (fun _ => 4) base (1/10)
      else
        ls'.rewind_buffer = (initLoopState (0, 0)).rewind_buffer ∧
        ls'.state = (initLoopState (0, 0)).state ∧
        ls'.elapsed_time = (initLoopState (0, 0)).elapsed_time + 1/10) :=
  C6_running_frame (initLoopState (0, 0)) (fun _ => 4) (1/10) rfl (by decide)

theorem clampQ_bounds (v lo hi : ℚ) (h : lo ≤ hi) :
    lo ≤ clampQ v lo hi ∧ clampQ v lo hi ≤ hi := by
  unfold clampQ
  split
  · exact ⟨le_refl lo, h⟩
  · split
    · exact ⟨h, le_refl hi⟩
    · rename_i h1 h2
      push_neg at h1 h2
      exact ⟨h1, h2⟩

theorem cameraUpdate_zoom (inp : FrameInput) (oldMouse : ℚ × ℚ) (cam : Camera) :
    (inp.scroll = 0 ∧ (cameraUpdate inp oldMouse cam).zoom = cam.zoom) ∨
    (inp.scroll ≠ 0 ∧ zoomInBounds (cameraUpdate inp oldMouse cam)) := by
  by_cases hs : inp.scroll = 0
  · left
    refine ⟨hs, ?_⟩
    simp [cameraUpdate, hs, apply_ite Camera.zoom]
  · right
    refine ⟨hs, ?_⟩
    have hbx : min_zoom.x ≤ max_zoom.x := by norm_num [min_zoom, max_zoom]
    have hby : min_zoom.y ≤ max_zoom.y := by norm_num [min_zoom, max_zoom]
    unfold zoomInBounds
    simp only [cameraUpdate, hs, ne_eq, not_false_iff, if_true, apply_ite Camera.zoom]
    exact ⟨(clampQ_bounds _ _ _ hbx).1, (clampQ_bounds _ _ _ hbx).2,
      (clampQ_bounds _ _ _ hby).1, (clampQ_bounds _ _ _ hby).2⟩

/-- C7: the initial camera zoom is inside the configured `[min_zoom, max_zoom]`
box on both axes, every wheel-driven zoom adjustment lands inside that box
(it is clamped), and every completed frame keeps both zoom axes inside it. -/
theorem C7_zoom_clamped :
    zoomInBounds initCamera ∧
    (∀ inp oldMouse cam, inp.scroll ≠ 0 → zoomInBounds (cameraUpdate inp oldMouse cam)) ∧
    (∀ inp fs ls ls' fs', frameStep inp fs ls = .ok (ls', fs') →
      zoomInBounds ls.camera → zoomInBounds ls'.camera) := by
  refine ⟨by norm_num [zoomInBounds, initCamera, min_zoom, max_zoom], ?_, ?_⟩
  · intro inp oldMouse cam hs
    rcases cameraUpdate_zoom inp oldMouse cam with ⟨h0, _⟩ | ⟨_, hz⟩
    · exact absurd h0 hs
    · exact hz
  · intro inp fs ls ls' fs' h hbase
    obtain ⟨ls2, hsim, hui⟩ := frameStep_ok_elim inp fs ls ls' fs' h
    have hcam2 := simStep_ok_camera _ _ _ _ hsim
    have hzoom' := (uiStep_ok_spec inp fs ls2 ls' fs' hui).2.2.2.2.2
    have hc : ls'.camera.zoom = (cameraUpdate inp ls.old_mouse_position ls.camera).zoom := by
      rw [hzoom', hcam2]; rfl
    rcases cameraUpdate_zoom inp ls.old_mouse_position ls.camera with ⟨_, hz⟩ | ⟨_, hz⟩
    · unfold zoomInBounds at hbase ⊢
      rw [hc, hz]
      exact hbase
    · unfold zoomInBounds at hz ⊢
      rw [hc]
      exact hz

theorem C7_witness : zoomInBounds (initLoopState (0, 0)).camera :=
  C7_zoom_clamped.2.2 noInput emptyFS (initLoopState (0, 0)) (initLoopState (0, 0)) emptyFS
    (by norm_num [frameStep, cameraInputStep, cameraUpdate, simStep, uiStep, uiWidgets,
      uiSave, uiLoad, uiFocus, noInput, initLoopState, initState, initCamera,
      rewind_interval, clampQ])
    C7_zoom_clamped.1

/-- C8: a successful Load button press leaves the history buffer (contents
and length) and the recorded max index — hence the slider bounds `[0, max]` —
unchanged, and replaces only the working state with the loaded one; the
stored files are untouched as well. -/
theorem C8_load_preserves_history (inp : FrameInput) (fs : FS) (ls ls' : LoopState) (fs' : FS)
    (s0 : SimulationState)
    (hl : inp.ui_load_clicked = true)
    (hns : inp.ui_save_clicked = false)
    (hload : load_simulation_state fs "simulation_state.json" = .ok s0)
    (h : uiStep inp fs ls = .ok (ls', fs')) :
    ls'.rewind_buffer = ls.rewind_buffer ∧
    ls'.max_buffer_index = ls.max_buffer_index ∧
    ls'.current_index = ls.current_index ∧
    ls'.state = s0 ∧
    fs' = fs := by
  have hsave : uiSave inp fs (uiWidgets inp ls) = .ok fs := by simp [uiSave, hns]
  unfold uiStep at h
  split at h
  · rename_i hs2
    rw [hsave] at hs2
    simp at hs2
  · rename_i fs1 hs2
    rw [hsave] at hs2
    simp only [Except.ok.injEq] at hs2
    subst hs2
    have hloadStep : uiLoad inp fs (uiWidgets inp ls) =
        .ok { uiWidgets inp ls with state := s0 } := by
      simp [uiLoad, hl, hload, Except.map]
    split at h
    · rename_i hl2
      rw [hloadStep] at hl2
      simp at hl2
    · rename_i ls2 hl2
      rw [hloadStep] at hl2
      simp only [Except.ok.injEq] at hl2
      subst hl2
      simp only [Except.ok.injEq, Prod.mk.injEq] at h
      obtain ⟨h1, h2⟩ := h
      subst h1
      refine ⟨?_, ?_, ?_, ?_, h2.symm⟩ <;>
        simp [uiFocus, uiWidgets, apply_ite LoopState.rewind_buffer,
          apply_ite LoopState.max_buffer_index, apply_ite LoopState.current_index,
          apply_ite LoopState.state]

theorem C8_witness :
    (initLoopState (0, 0)).rewind_buffer = (initLoopState (0, 0)).rewind_buffer ∧
    (initLoopState (0, 0)).max_buffer_index = (initLoopState (0, 0)).max_buffer_index ∧
    (initLoopState (0, 0)).current_index = (initLoopState (0, 0)).current_index ∧
    (initLoopState (0, 0)).state = initState ∧
    savedFS = savedFS :=
  C8_load_preserves_history loadFrame savedFS (initLoopState (0, 0)) (initLoopState (0, 0))
    savedFS initState rfl rfl
    (by simp [load_simulation_state, savedFS, FS.read_write, fromJson_toJson])
    (by norm_num [uiStep, uiWidgets, uiSave, uiLoad, uiFocus, loadFrame, noInput,
      initLoopState, initState, clampQ, load_simulation_state, savedFS, FS.read_write,
      fromJson_toJson, Except.map])

theorem simStep_inv (rng : ℕ → ℤ) (dt : ℚ) (ls ls' : LoopState)
    (hInv : LoopInv ls) (h : simStep rng dt ls = .ok ls') : LoopInv ls' := by
  obtain ⟨hne, hmax, hslider⟩ := hInv
  unfold simStep at h
  split at h
  · split at h <;> (simp only [Except.ok.injEq] at h; subst h)
    · exact ⟨hne, hmax, hslider⟩
    · exact ⟨hne, hmax, hslider⟩
  · split at h
    · split at h
      · simp at h
      · rename_i ls1 hre
        simp only [Except.ok.injEq] at h
        subst h
        have hspec := resync_spec _ _ hre
        rw [appendSnapshot_def]
        refine ⟨by simp, by simp, ?_⟩
        simp
    · simp only [Except.ok.injEq] at h
      subst h
      exact ⟨hne, hmax, hslider⟩

theorem simStep_ne_index (rng : ℕ → ℤ) (dt : ℚ) (ls : LoopState) (hInv : LoopInv ls) :
    simStep rng dt ls ≠ .error .indexOutOfBounds := by
  obtain ⟨hne, hmax, hslider⟩ := hInv
  have hpos : 0 < ls.rewind_buffer.length := List.length_pos.mpr hne
  have hlt : ls.slider_value < ls.rewind_buffer.length := by omega
  obtain ⟨ls1, hre⟩ := resync_isSome ls hlt
  unfold simStep
  split
  all_goals try split
  all_goals simp [hre]

theorem frameStep_inv (inp : FrameInput) (fs : FS) (ls ls' : LoopState) (fs' : FS)
    (hInv : LoopInv ls) (h : frameStep inp fs ls = .ok (ls', fs')) : LoopInv ls' := by
  obtain ⟨ls2, hsim, hui⟩ := frameStep_ok_elim inp fs ls ls' fs' h
  have hInv1 : LoopInv (cameraInputStep inp ls) := hInv
  have hInv2 := simStep_inv _ _ _ _ hInv1 hsim
  obtain ⟨hb, hm, _, _, hs, _⟩ := uiStep_ok_spec inp fs ls2 ls' fs' hui
  obtain ⟨h1, h2, h3⟩ := hInv2
  exact ⟨by rw [hb]; exact h1, by rw [hm, hb]; exact h2,
    by rw [hs, hm]; exact min_le_right _ _⟩

theorem frameStep_ne_index (inp : FrameInput) (fs : FS) (ls : LoopState) (hInv : LoopInv ls) :
    frameStep inp fs ls ≠ .error .indexOutOfBounds := by
  unfold frameStep
  split
  · rename_i e hsim
    intro hc
    injection hc with he
    subst he
    exact simStep_ne_index _ _ _ (show LoopInv (cameraInputStep inp ls) from hInv) hsim
  · rename_i ls2 hsim
    intro hc
    exact (uiStep_error inp fs ls2 _ hc) rfl

/-- C10: out-of-range history-buffer access is impossible: the loop invariant
(buffer non-empty, recorded max index equal to buffer length minus one,
slider within `[0, max_buffer_index]`) holds at startup, is preserved by
every completed frame (the UI time slider being clamped to `[0, max]`), and
under it no frame can fail with an out-of-bounds buffer index — the indexing
panic branch is unreachable. -/
theorem C10_no_out_of_range :
    (∀ m, LoopInv (initLoopState m)) ∧
    (∀ inp fs ls, LoopInv ls → frameStep inp fs ls ≠ .error .indexOutOfBounds) ∧
    (∀ inp fs ls ls' fs', LoopInv ls → frameStep inp fs ls = .ok (ls', fs') → LoopInv ls') :=
  ⟨fun m => ⟨by simp [initLoopState], rfl, Nat.le_refl 0⟩,
   fun inp fs ls hInv => frameStep_ne_index inp fs ls hInv,
   fun inp fs ls ls' fs' hInv h => frameStep_inv inp fs ls ls' fs' hInv h⟩

theorem C10_witness :
    LoopInv (initLoopState (0, 0)) ∧
    frameStep noInput emptyFS (initLoopState (0, 0)) ≠ .error .indexOutOfBounds :=
  ⟨C10_no_out_of_range.1 (0, 0),
   C10_no_out_of_range.2.1 noInput emptyFS (initLoopState (0, 0))
     (C10_no_out_of_range.1 (0, 0))⟩
